import Mathlib

/-!
Shallow embedding of the healthcare dashboard front-end
(`src/src/Dashboard_App.tsx`, with the unnamed resident variant
`src/unnamed/part_000` consulted where the claims cite it).

The embedding follows the TypeScript source:
* numeric values are modelled as exact rationals (`ℚ`); the JavaScript
  `NaN`/`Infinity` special values that matter to the claims are modelled
  explicitly by the `JSNum` type where the source can produce them;
* JavaScript objects become structures, optional fields become `Option`;
* the stateful React components become explicit state records with pure
  step functions, one per event handler or effect;
* `fetch` outcomes are an explicit environment input (`FetchOutcome`),
  so the `api` wrapper is a total function of that outcome.
-/

/-- Visual style record for one risk level (interface `RiskStyle`). -/
structure RiskStyle where
  fill : String
  stroke : String
  glow : String
  label : String
  icon : String
deriving DecidableEq, Repr

/-- The five style entries of the design-token object `T` in
`Dashboard_App.tsx` (lines 100–104). -/
def T_LOW : RiskStyle :=
  { fill := "#0d3320", stroke := "#1a6640", glow := "#00ff88", label := "LOW RISK", icon := "◆" }

def T_MEDIUM : RiskStyle :=
  { fill := "#2d1f00", stroke := "#7a5200", glow := "#ffaa00", label := "ELEVATED", icon := "▲" }

def T_HIGH : RiskStyle :=
  { fill := "#2d0a0a", stroke := "#8b1a1a", glow := "#ff4444", label := "HIGH RISK", icon := "■" }

def T_URGENT : RiskStyle :=
  { fill := "#2d0020", stroke := "#8b0060", glow := "#ff00aa", label := "URGENT", icon := "◉" }

def T_NONE : RiskStyle :=
  { fill := "#0c1220", stroke := "#1a2540", glow := "#4a6080", label := "—", icon := "○" }

/-- A value stored in the token object `T`: either a genuine `RiskStyle`
entry or a bare color-token string (`bg`, `surface`, `border`, `borderHi`,
`text`, `muted`). The source casts `T` to `Record<string, RiskStyle>`, so
an index expression can produce either kind of value. -/
inductive TValue where
  | style (s : RiskStyle)
  | token (s : String)
deriving DecidableEq, Repr

/-- Indexing `T[key]` from `Dashboard_App.tsx` lines 93–105: `some` when
the key is present on the object, `none` otherwise. -/
def Tget (key : String) : Option TValue :=
  match key with
  | "bg" => some (TValue.token "#060a12")
  | "surface" => some (TValue.token "#0c1220")
  | "border" => some (TValue.token "#1a2540")
  | "borderHi" => some (TValue.token "#243050")
  | "text" => some (TValue.token "#c8d8f0")
  | "muted" => some (TValue.token "#4a6080")
  | "LOW" => some (TValue.style T_LOW)
  | "MEDIUM" => some (TValue.style T_MEDIUM)
  | "HIGH" => some (TValue.style T_HIGH)
  | "URGENT" => some (TValue.style T_URGENT)
  | "NONE" => some (TValue.style T_NONE)
  | _ => none

/-- The style lookup `risk` (line 107–108):
`(T as Record<string, RiskStyle>)[lvl ?? ""] ?? T.NONE`.
`none` models a missing `lvl` argument. The `??` nullish-coalescing
falls back to `T.NONE` only when the index misses entirely. -/
def risk (lvl : Option String) : TValue :=
  match Tget (lvl.getD "") with
  | some v => v
  | none => TValue.style T_NONE

/-- The four defined alert levels of the claim. -/
def definedLevels : List String := ["LOW", "MEDIUM", "HIGH", "URGENT"]

/-! ## Remote Client (`api`, lines 10–19) -/

/-- Result delivered to a call site of `api`: either the parsed typed
value or the uniform error marker `{ __error: string }`, distinguished
solely by which constructor (= presence of the `__error` field). -/
inductive ApiResult (V : Type) where
  | value (v : V)
  | error (msg : String)
deriving DecidableEq, Repr

/-- Environment outcome of the underlying `fetch` + `r.json()` pair:
either the promise rejects (network failure, with the rejection's
message), or a response arrives with an `ok` flag, a status code and a
body that parses to a value or fails to parse (with the parse error's
message). -/
inductive FetchOutcome (V : Type) where
  | netErr (msg : String)
  | resp (ok : Bool) (status : Nat) (body : Except String V)
deriving Repr

/-- The catch clause's message normalisation:
`(e as Error).message || "Server unreachable"` — an empty (falsy)
message string falls back to the constant. -/
def errMessage (m : String) : String :=
  if m = "" then "Server unreachable" else m

/-- The `api` wrapper (lines 10–19): try `fetch`; throw
`Error("HTTP " + status)` when `!r.ok`; otherwise parse the body; any
thrown/rejected error is caught and returned as the uniform
`{ __error }` marker. `path` is the endpoint suffix (it only affects
the URL, never the result shape). -/
def api {V : Type} (path : String) (f : FetchOutcome V) : ApiResult V :=
  let _ := path
  match f with
  | FetchOutcome.netErr m => ApiResult.error (errMessage m)
  | FetchOutcome.resp ok status body =>
      if ok then
        match body with
        | Except.ok v => ApiResult.value v
        | Except.error m => ApiResult.error (errMessage m)
      else
        ApiResult.error (errMessage ("HTTP " ++ toString status))

/-- Classification of the fetch outcomes the claim calls failures:
network failure, non-2xx HTTP status, or response-body parse failure. -/
def isFailure {V : Type} : FetchOutcome V → Bool
  | FetchOutcome.netErr _ => true
  | FetchOutcome.resp ok _ (Except.ok _) => !ok
  | FetchOutcome.resp _ _ (Except.error _) => true

/-! ## Shared JavaScript numeric helpers -/

/-- `Math.round` / `toFixed(0)` on an exact nonnegative rational:
round half toward positive infinity, `⌊x + 1/2⌋`. -/
def jsRound (q : ℚ) : ℤ := ⌊q + 1 / 2⌋

theorem errMessage_ne_empty (m : String) : errMessage m ≠ "" := by
  unfold errMessage
  split
  · decide
  · assumption

/-! ## JavaScript `parseFloat` and the numeric form-field coercion
(`Dashboard_App.tsx` lines 387–390) -/

/-- A JavaScript number as far as the coercion logic can observe it:
`NaN`, a signed infinity, or an exact finite value. -/
inductive JSNum where
  | nan
  | inf (neg : Bool)
  | val (q : ℚ)
deriving DecidableEq, Repr

/-- StrWhiteSpace characters skipped by `parseFloat` (the common ones). -/
def jsWhitespace (c : Char) : Bool :=
  c == ' ' || c == '\t' || c == '\n' || c == '\r' || c == '\x0b' || c == '\x0c'

/-- Numeric value of a list of decimal digit characters. -/
def natOfDigits (ds : List Char) : Nat :=
  ds.foldl (fun a c => 10 * a + (c.toNat - 48)) 0

/-- Exponent digits after an optional sign; an empty digit run means the
exponent marker is not part of the parsed literal, contributing 0. -/
def expDigits (cs : List Char) (neg : Bool) : ℤ :=
  let ds := cs.takeWhile Char.isDigit
  if ds.isEmpty then 0
  else if neg then -(natOfDigits ds : ℤ) else (natOfDigits ds : ℤ)

/-- Optional sign of an exponent part. -/
def expSigned (cs : List Char) : ℤ :=
  match cs with
  | '+' :: rest => expDigits rest false
  | '-' :: rest => expDigits rest true
  | _ => expDigits cs false

/-- Optional ExponentPart following the mantissa. -/
def expPart (cs : List Char) : ℤ :=
  match cs with
  | 'e' :: rest => expSigned rest
  | 'E' :: rest => expSigned rest
  | _ => 0

/-- Mantissa of a decimal literal: `Digits [. Digits]` or `. Digits`;
`none` when no digit is consumed (the input is not numeric). Returns the
value together with the unconsumed rest (for the exponent). -/
def mantissa (cs : List Char) : Option (ℚ × List Char) :=
  let ip := cs.takeWhile Char.isDigit
  let rest := cs.dropWhile Char.isDigit
  match rest with
  | '.' :: rest2 =>
      let fp := rest2.takeWhile Char.isDigit
      let rest3 := rest2.dropWhile Char.isDigit
      if ip.isEmpty && fp.isEmpty then none
      else some ((natOfDigits ip : ℚ) + (natOfDigits fp : ℚ) / (10 : ℚ) ^ fp.length, rest3)
  | _ =>
      if ip.isEmpty then none
      else some ((natOfDigits ip : ℚ), rest)

/-- Literal `Infinity`. -/
def infinityLit (cs : List Char) : Bool :=
  match cs with
  | 'I' :: 'n' :: 'f' :: 'i' :: 'n' :: 'i' :: 't' :: 'y' :: _ => true
  | _ => false

/-- Unsigned part of `parseFloat` after whitespace and sign handling. -/
def parseFloatCore (cs : List Char) (neg : Bool) : JSNum :=
  if infinityLit cs then JSNum.inf neg
  else
    match mantissa cs with
    | none => JSNum.nan
    | some (m, rest) =>
        let q := m * (10 : ℚ) ^ expPart rest
        JSNum.val (if neg then -q else q)

/-- ECMAScript `parseFloat`: skip leading whitespace, optional sign,
then the longest prefix that is a decimal literal or `Infinity`;
`NaN` when no such prefix exists. Idealised to exact rationals (no
double-precision rounding), which preserves the NaN/zero behaviour the
claims are about. -/
def parseFloat (s : String) : JSNum :=
  let cs := s.toList.dropWhile jsWhitespace
  match cs with
  | '+' :: rest => parseFloatCore rest false
  | '-' :: rest => parseFloatCore rest true
  | _ => parseFloatCore cs false

/-- JavaScript `x || 0` where `x` is a number: falls back to `0` exactly
when `x` is falsy (`NaN`, `0`, `-0`). -/
def jsOrZero (n : JSNum) : JSNum :=
  match n with
  | JSNum.nan => JSNum.val 0
  | JSNum.inf b => JSNum.inf b
  | JSNum.val q => if q = 0 then JSNum.val 0 else JSNum.val q

/-- A value stored into the form record by the change handler: numeric
fields store a number, select fields store the raw string. -/
inductive FieldValue where
  | num (n : JSNum)
  | str (s : String)
deriving DecidableEq, Repr

/-- The `change` handler's stored value (lines 387–390):
`type === "number" ? parseFloat(value) || 0 : value`. -/
def changeField (fieldType : String) (raw : String) : FieldValue :=
  if fieldType = "number" then FieldValue.num (jsOrZero (parseFloat raw))
  else FieldValue.str raw

/-! ## Single-patient form, presets and the predict action
(`Dashboard_App.tsx` lines 364–408, 421–441) -/

/-- Consciousness select values. -/
inductive ConsciousnessLevel where
  | Alert
  | Confused
  | Drowsy
  | Unresponsive
deriving DecidableEq, Repr

/-- The `PatientForm` record (lines 37–52); numeric fields as exact
rationals. -/
structure PatientForm where
  age : ℚ
  heart_rate : ℚ
  systolic_bp : ℚ
  oxygen_saturation : ℚ
  temperature_c : ℚ
  respiratory_rate : ℚ
  pain_score : ℚ
  consciousness_level : ConsciousnessLevel
  mobility_score : ℚ
  hour_of_day : ℚ
  days_in_hospital : ℚ
  prior_episodes : ℚ
  medications_count : ℚ
  days_since_last_episode : ℚ
deriving DecidableEq, Repr

/-- The `DEFAULT` form constant (lines 364–370). -/
def DEFAULT : PatientForm :=
  { age := 72, heart_rate := 80, systolic_bp := 118, oxygen_saturation := 95.5,
    temperature_c := 37.2, respiratory_rate := 17, pain_score := 3.5,
    consciousness_level := ConsciousnessLevel.Alert, mobility_score := 2, hour_of_day := 14,
    days_in_hospital := 7, prior_episodes := 1, medications_count := 6,
    days_since_last_episode := 10 }

/-- Names of the preset templates (keys of `PRESETS`, lines 372–376). -/
inductive PresetName where
  | stable
  | medium
  | urgent
deriving DecidableEq, Repr

/-- The `PRESETS` constant templates (lines 372–376), each a spread of
`DEFAULT` with overrides. -/
def PRESETS : PresetName → PatientForm
  | PresetName.stable =>
      { DEFAULT with
          heart_rate := 68, oxygen_saturation := 98, respiratory_rate := 13,
          pain_score := 1, consciousness_level := ConsciousnessLevel.Alert,
          prior_episodes := 0, systolic_bp := 130 }
  | PresetName.medium =>
      { DEFAULT with
          heart_rate := 92, oxygen_saturation := 93, respiratory_rate := 23,
          pain_score := 6, consciousness_level := ConsciousnessLevel.Confused,
          hour_of_day := 3, prior_episodes := 2, systolic_bp := 102 }
  | PresetName.urgent =>
      { DEFAULT with
          age := 87, heart_rate := 118, oxygen_saturation := 86,
          respiratory_rate := 34, pain_score := 9,
          consciousness_level := ConsciousnessLevel.Drowsy, mobility_score := 3,
          hour_of_day := 2, days_in_hospital := 48, prior_episodes := 5,
          days_since_last_episode := 1, systolic_bp := 84, temperature_c := 39.1 }

/-- The `PredictionResult` response record (lines 54–63); `model_auc`
is `string | number` in the source, kept as its display string. -/
structure PredictionResult where
  risk_score : ℚ
  alert_level : String
  news2_score : ℚ
  news2_risk : String
  model_auc : String
  predicted_at : String
  action : String
deriving DecidableEq, Repr

/-- View state of the `SinglePatient` component (lines 382–385):
`form`, `result`, `loading`, `error`. -/
structure SPState where
  form : PatientForm
  result : Option PredictionResult
  loading : Bool
  error : Option String
deriving DecidableEq, Repr

/-- The `predict` action (lines 392–408) run to completion against a
given `api` outcome: `setLoading(true); setError(null)`, await,
`setLoading(false)`, then `setError` on the error marker else
`setResult`. -/
def predictRun (s : SPState) (res : ApiResult PredictionResult) : SPState :=
  let s0 := { s with loading := true, error := none }
  let s1 := { s0 with loading := false }
  match res with
  | ApiResult.error m => { s1 with error := some m }
  | ApiResult.value r => { s1 with result := some r }

/-- The preset button click handler (line 422):
`setForm(PRESETS[p]); setResult(null);` — note it does not touch
`error`. -/
def applyPreset (s : SPState) (p : PresetName) : SPState :=
  { s with form := PRESETS p, result := none }

/-! ## Batch view breakdown cards (`Dashboard_App.tsx` lines 615–636) -/

/-- The per-level count `breakdown[lvl] || 0`: the server's partial
breakdown mapping is a key/count association list; a missing key (and a
falsy 0) renders as 0. -/
def breakdownCount (breakdown : List (String × Nat)) (lvl : String) : Nat :=
  match breakdown.lookup lvl with
  | some c => c
  | none => 0

/-- The rendered percentage
`result.total_patients ? (count / total * 100).toFixed(0) : 0`
(line 621); `toFixed(0)` on these nonnegative exact values rounds half
toward positive infinity, i.e. `jsRound`. -/
def pctRendered (count total : Nat) : ℤ :=
  if total = 0 then 0 else jsRound ((count : ℚ) / (total : ℚ) * 100)

/-! ## RiskOrb ring gauge (`Dashboard_App.tsx` lines 234–281) -/

/-- `circumference = 2 * Math.PI * 45` with the value of `Math.PI` kept
as a parameter `pi` (the source's double approximation of π is a fixed
positive constant). -/
def circumference (pi : ℚ) : ℚ := 2 * pi * 45

/-- `dashOffset = circumference - circumference * (score || 0)`
(line 238); the caller passes the score directly, `score || 0` is
applied in `renderOrb` below. -/
def dashOffset (pi score : ℚ) : ℚ :=
  circumference pi - circumference pi * score

/-- The visible arc length (angular sweep) produced by a stroke with
`strokeDasharray = circumference` and `strokeDashoffset = dashOffset`. -/
def sweep (pi score : ℚ) : ℚ :=
  circumference pi - dashOffset pi score

/-- `score || 0` for an optional score (`null` and `0` are falsy). -/
def qOrZero (x : Option ℚ) : ℚ :=
  match x with
  | none => 0
  | some q => if q = 0 then 0 else q

/-- Geometry the component actually renders: the progress circle's dash
offset when that circle is rendered at all (`score != null`), and the
integer percentage label (`Math.round(score * 100)`), `none` rendering
the em-dash placeholder. -/
structure OrbGeometry where
  arc : Option ℚ
  pctLabel : Option ℤ
deriving DecidableEq, Repr

/-- `RiskOrb` rendering (lines 234–281) restricted to the gauge
geometry. -/
def renderOrb (pi : ℚ) (score : Option ℚ) : OrbGeometry :=
  { arc :=
      match score with
      | some _ => some (dashOffset pi (qOrZero score))
      | none => none,
    pctLabel :=
      match score with
      | some sc => some (jsRound (sc * 100))
      | none => none }

/-! ## Live dashboard: fetch, polling effect and timers
(`Dashboard_App.tsx` lines 693–725) -/

/-- The `PatientSummary` row (lines 72–80). -/
structure PatientSummary where
  patient_id : Option String
  risk_score : ℚ
  alert_level : String
  news2_score : Option ℚ
  oxygen_saturation : Option ℚ
  respiratory_rate : Option ℚ
  action : String
deriving DecidableEq, Repr

/-- The polling period passed to `setInterval` (line 718). -/
def POLL_INTERVAL_MS : Nat := 60000

/-- State of the `LiveDashboard` component together with the browser
timer environment: `timers` is the set of live intervals as
`(id, period-ms)` pairs, `intervalRef` mirrors `intervalRef.current`
(which the source never nulls out), `nextId` is the next fresh timer id
and `fetchCount` counts started `fetchAlerts` calls. -/
structure LiveState where
  patients : List PatientSummary
  loading : Bool
  lastRefresh : Option Nat
  autoRefresh : Bool
  timers : List (Nat × Nat)
  intervalRef : Option Nat
  nextId : Nat
  fetchCount : Nat
deriving DecidableEq, Repr

/-- `fetchAlerts` (lines 702–710) run to completion against a given
`api` outcome: `setLoading(true)`, await, `setLoading(false)`, then
`if (!res.__error && res.patients) { setPatients(...); setLastRefresh(new Date()); }`.
The value carries `Option (List PatientSummary)` because the response
body's `patients` field is optional; `now` is the wall-clock instant of
a successful store. -/
def fetchAlertsRun (s : LiveState) (res : ApiResult (Option (List PatientSummary)))
    (now : Nat) : LiveState :=
  let s1 := { s with loading := true, fetchCount := s.fetchCount + 1 }
  let s2 := { s1 with loading := false }
  match res with
  | ApiResult.error _ => s2
  | ApiResult.value none => s2
  | ApiResult.value (some ps) => { s2 with patients := ps, lastRefresh := some now }

/-- `clearInterval(t)`: removes the timer with id `t` from the live set
(a no-op on an already-cleared id). -/
def clearTimer (timers : List (Nat × Nat)) (t : Nat) : List (Nat × Nat) :=
  timers.filter (fun p => p.fst != t)

/-- The effect cleanup (lines 722–724):
`if (intervalRef.current) clearInterval(intervalRef.current)`. -/
def cleanupEffect (s : LiveState) : LiveState :=
  match s.intervalRef with
  | some t => { s with timers := clearTimer s.timers t }
  | none => s

/-- The effect body (lines 716–721): when `autoRefresh` is on, start a
fresh interval with period `POLL_INTERVAL_MS` and store its id in the
ref; when off, clear whatever id the ref holds. -/
def runEffect (s : LiveState) : LiveState :=
  if s.autoRefresh then
    { s with
        timers := (s.nextId, POLL_INTERVAL_MS) :: s.timers,
        intervalRef := some s.nextId,
        nextId := s.nextId + 1 }
  else
    match s.intervalRef with
    | some t => { s with timers := clearTimer s.timers t }
    | none => s

/-- Toggling the `autoRefresh` switch to `b`: React re-renders, runs the
previous effect's cleanup, then the new effect body (the dependency
array is `[autoRefresh, fetchAlerts]` and `fetchAlerts` is a stable
`useCallback([], …)` identity, so only the toggle changes it). -/
def setAutoRefresh (s : LiveState) (b : Bool) : LiveState :=
  runEffect { cleanupEffect s with autoRefresh := b }

/-- Component teardown: React runs the last effect's cleanup. -/
def unmountLive (s : LiveState) : LiveState :=
  cleanupEffect s

/-- A live interval with id `t` fires: it invokes `fetchAlerts` (counted
here; the fetch completion itself is `fetchAlertsRun`). A cleared or
never-created id fires nothing. -/
def timerFire (s : LiveState) (t : Nat) : LiveState :=
  if s.timers.any (fun p => p.fst == t) then
    { s with fetchCount := s.fetchCount + 1 }
  else s

/-- Invariant maintained by the component: every live timer was created
by the effect and its id is the one held in `intervalRef`. -/
def LiveInv (s : LiveState) : Prop :=
  ∀ p ∈ s.timers, s.intervalRef = some p.fst

/-- The component state right after mount, before any effect ran. -/
def mountLive : LiveState :=
  { patients := [], loading := false, lastRefresh := none, autoRefresh := false,
    timers := [], intervalRef := none, nextId := 0, fetchCount := 0 }

theorem clearTimer_eq_nil (l : List (Nat × Nat)) (t : Nat)
    (h : ∀ p ∈ l, p.fst = t) : clearTimer l t = [] := by
  induction l with
  | nil => rfl
  | cons p l ih =>
      have hp : p.fst = t := h p (List.mem_cons_self p l)
      simp only [clearTimer, List.filter]
      rw [hp]
      simp only [bne_self_eq_false]
      exact ih (fun q hq => h q (List.mem_cons_of_mem p hq))

theorem cleanup_timers_nil (s : LiveState) (h : LiveInv s) :
    (cleanupEffect s).timers = [] := by
  unfold cleanupEffect
  cases hR : s.intervalRef with
  | none =>
      cases hT : s.timers with
      | nil => simp [hT]
      | cons p l =>
          have := h p (by rw [hT]; exact List.mem_cons_self p l)
          rw [hR] at this
          exact absurd this (by simp)
  | some t =>
      simp only
      exact clearTimer_eq_nil s.timers t (fun p hp => by
        have := h p hp
        rw [hR] at this
        exact (Option.some_injective _ this).symm)

/-! ## Supporting lemmas -/

theorem jsOrZero_ne_nan (n : JSNum) : jsOrZero n ≠ JSNum.nan := by
  cases n with
  | nan => simp [jsOrZero]
  | inf b => simp [jsOrZero]
  | val q =>
      simp only [jsOrZero]
      split <;> simp

theorem cleanupEffect_intervalRef (s : LiveState) :
    (cleanupEffect s).intervalRef = s.intervalRef := by
  unfold cleanupEffect
  split <;> rfl

theorem cleanupEffect_nextId (s : LiveState) :
    (cleanupEffect s).nextId = s.nextId := by
  unfold cleanupEffect
  split <;> rfl

theorem cleanupEffect_fetchCount (s : LiveState) :
    (cleanupEffect s).fetchCount = s.fetchCount := by
  unfold cleanupEffect
  split <;> rfl

theorem cleanupEffect_timers_of_nil (s : LiveState) (h : s.timers = []) :
    (cleanupEffect s).timers = [] := by
  unfold cleanupEffect
  split
  · simp [clearTimer, h]
  · exact h

theorem runEffect_fetchCount (s : LiveState) :
    (runEffect s).fetchCount = s.fetchCount := by
  unfold runEffect
  split
  · rfl
  · split <;> rfl

theorem setAutoRefresh_fetchCount (s : LiveState) (b : Bool) :
    (setAutoRefresh s b).fetchCount = s.fetchCount := by
  unfold setAutoRefresh
  rw [runEffect_fetchCount]
  exact cleanupEffect_fetchCount s

theorem setAutoRefresh_true_timers (s : LiveState) (h : LiveInv s) :
    (setAutoRefresh s true).timers = [(s.nextId, POLL_INTERVAL_MS)] := by
  unfold setAutoRefresh runEffect
  simp [cleanup_timers_nil s h, cleanupEffect_nextId]

theorem setAutoRefresh_true_intervalRef (s : LiveState) :
    (setAutoRefresh s true).intervalRef = some s.nextId := by
  unfold setAutoRefresh runEffect
  simp [cleanupEffect_nextId]

theorem setAutoRefresh_false_timers_of_single (s : LiveState) (n : Nat)
    (ht : s.timers = [(n, POLL_INTERVAL_MS)]) (hr : s.intervalRef = some n) :
    (setAutoRefresh s false).timers = [] := by
  unfold setAutoRefresh runEffect cleanupEffect
  rw [hr]
  simp [ht, clearTimer]

/-- A sample prediction result used as a concrete pre-existing view state. -/
def sampleResult : PredictionResult :=
  { risk_score := 0.42, alert_level := "MEDIUM", news2_score := 3, news2_risk := "Medium",
    model_auc := "0.87", predicted_at := "2025-01-01T10:00:00Z", action := "Monitor closely" }

/-- The concrete batch breakdown of the claim. -/
def sampleBreakdown : List (String × Nat) :=
  [("LOW", 3), ("MEDIUM", 1), ("HIGH", 0), ("URGENT", 0)]

/-! ## Claim theorems -/

/-- Claim C1 (counterexample): the claim demands that every input that is
not one of the four defined levels map to the NONE style exactly, but the
design-token key `"bg"` is a counterexample: the lookup hits the token
string `"#060a12"` on the `T` object, which is truthy, so the `?? T.NONE`
fallback never fires and the result is not the NONE style (nor any
`RiskStyle` at all). -/
theorem c1_counterexample_risk_bg :
    risk (some "bg") = TValue.token "#060a12" ∧
    TValue.token "#060a12" ≠ TValue.style T_NONE := by
  constructor
  · decide
  · decide

/-- Claim C1 (amended): for each of the four defined levels `styleFor`
(`risk`) returns the corresponding defined style, whose label and icon
are non-empty; a missing level and any level string that is not a key of
the token object `T` (including `"NONE"` itself) resolve to the defined
NONE entry exactly. (Inputs colliding with the six non-style design-token
keys of `T` instead return that raw token string.) -/
theorem c1_risk_style_total_amended :
    (risk (some "LOW") = TValue.style T_LOW ∧
     risk (some "MEDIUM") = TValue.style T_MEDIUM ∧
     risk (some "HIGH") = TValue.style T_HIGH ∧
     risk (some "URGENT") = TValue.style T_URGENT) ∧
    (T_LOW.label ≠ "" ∧ T_LOW.icon ≠ "" ∧ T_MEDIUM.label ≠ "" ∧ T_MEDIUM.icon ≠ "" ∧
     T_HIGH.label ≠ "" ∧ T_HIGH.icon ≠ "" ∧ T_URGENT.label ≠ "" ∧ T_URGENT.icon ≠ "") ∧
    (risk none = TValue.style T_NONE ∧ risk (some "NONE") = TValue.style T_NONE) ∧
    (∀ s : String, Tget s = none → risk (some s) = TValue.style T_NONE) := by
  refine ⟨by decide, by decide, by decide, ?_⟩
  intro s hs
  unfold risk
  rw [show (some s).getD "" = s from rfl, hs]

/-- Witness for the amended C1 theorem at the concrete unknown level
`"UNKNOWN"`. -/
theorem c1_risk_style_total_amended_witness :
    Tget "UNKNOWN" = none ∧ risk (some "UNKNOWN") = TValue.style T_NONE :=
  ⟨by decide, c1_risk_style_total_amended.2.2.2 "UNKNOWN" (by decide)⟩

/-- Claim C2: from any component state satisfying the timer invariant,
toggling auto-refresh on starts exactly one interval with the fixed
60-second period; toggling it off again within the interval leaves zero
live timers, no timer can fire a further fetch, the fetch count is
unchanged, and unmounting (from either the on or the off state) also
leaves zero live timers. -/
theorem c2_autorefresh_toggle_no_leak (s : LiveState) (h : LiveInv s) :
    (setAutoRefresh s true).timers = [(s.nextId, POLL_INTERVAL_MS)] ∧
    (setAutoRefresh (setAutoRefresh s true) false).timers = [] ∧
    (∀ t, timerFire (setAutoRefresh (setAutoRefresh s true) false) t
        = setAutoRefresh (setAutoRefresh s true) false) ∧
    (setAutoRefresh (setAutoRefresh s true) false).fetchCount = s.fetchCount ∧
    (unmountLive (setAutoRefresh s true)).timers = [] ∧
    (unmountLive (setAutoRefresh (setAutoRefresh s true) false)).timers = [] := by
  have h1t : (setAutoRefresh s true).timers = [(s.nextId, POLL_INTERVAL_MS)] :=
    setAutoRefresh_true_timers s h
  have h1r : (setAutoRefresh s true).intervalRef = some s.nextId :=
    setAutoRefresh_true_intervalRef s
  have h2t : (setAutoRefresh (setAutoRefresh s true) false).timers = [] :=
    setAutoRefresh_false_timers_of_single (setAutoRefresh s true) s.nextId h1t h1r
  have inv1 : LiveInv (setAutoRefresh s true) := by
    intro p hp
    rw [h1t] at hp
    rw [List.mem_singleton] at hp
    subst hp
    rw [h1r]
  refine ⟨h1t, h2t, ?_, ?_, ?_, ?_⟩
  · intro t
    unfold timerFire
    rw [h2t]
    rfl
  · rw [setAutoRefresh_fetchCount, setAutoRefresh_fetchCount]
  · exact cleanup_timers_nil _ inv1
  · exact cleanupEffect_timers_of_nil _ h2t

/-- Witness for the C2 theorem at the freshly mounted component state. -/
theorem c2_autorefresh_toggle_no_leak_witness :
    LiveInv mountLive ∧
    (setAutoRefresh mountLive true).timers = [(0, 60000)] ∧
    (setAutoRefresh (setAutoRefresh mountLive true) false).timers = [] :=
  ⟨fun p hp => absurd hp (by simp [mountLive]),
   (c2_autorefresh_toggle_no_leak mountLive
      (fun p hp => absurd hp (by simp [mountLive]))).1,
   (c2_autorefresh_toggle_no_leak mountLive
      (fun p hp => absurd hp (by simp [mountLive]))).2.1⟩

/-- Claim C3: for every path and every outcome of the underlying fetch,
`api` is total; on any failure (network failure, non-2xx status, body
parse failure) it returns the uniform error marker carrying a non-empty
message, and on success it returns the typed value — the two cases are
distinguished solely by the `ApiResult` constructor, i.e. presence of
the error field. -/
theorem c3_api_uniform_error (V : Type) (path : String) (f : FetchOutcome V) :
    (isFailure f = true → ∃ m, api path f = ApiResult.error m ∧ m ≠ "") ∧
    (isFailure f = false → ∃ v, api path f = ApiResult.value v) := by
  cases f with
  | netErr m =>
      exact ⟨fun _ => ⟨errMessage m, rfl, errMessage_ne_empty m⟩,
             fun hf => by simp [isFailure] at hf⟩
  | resp ok status body =>
      cases body with
      | ok v =>
          cases ok with
          | true =>
              exact ⟨fun hf => by simp [isFailure] at hf, fun _ => ⟨v, rfl⟩⟩
          | false =>
              exact ⟨fun _ => ⟨errMessage ("HTTP " ++ toString status), rfl,
                       errMessage_ne_empty _⟩,
                     fun hf => by simp [isFailure] at hf⟩
      | error m =>
          cases ok with
          | true =>
              exact ⟨fun _ => ⟨errMessage m, rfl, errMessage_ne_empty m⟩,
                     fun hf => by simp [isFailure] at hf⟩
          | false =>
              exact ⟨fun _ => ⟨errMessage ("HTTP " ++ toString status), rfl,
                       errMessage_ne_empty _⟩,
                     fun hf => by simp [isFailure] at hf⟩

/-- Witness for the C3 theorem at a concrete non-2xx outcome. -/
theorem c3_api_uniform_error_witness :
    isFailure (FetchOutcome.resp false 500 (Except.ok 0) : FetchOutcome Nat) = true ∧
    (∃ m, api "/predict/single"
        (FetchOutcome.resp false 500 (Except.ok 0) : FetchOutcome Nat)
        = ApiResult.error m ∧ m ≠ "") :=
  ⟨rfl, (c3_api_uniform_error Nat "/predict/single"
      (FetchOutcome.resp false 500 (Except.ok 0))).1 rfl⟩

/-- Claim C4 (counterexample): when a prior successful submit has stored
a result and the next submit fails, the completed state has the old
result and the new error populated at once, contradicting "exactly one
of {result, error} set — never both". -/
theorem c4_counterexample_both_populated :
    ((predictRun
        { form := DEFAULT, result := some sampleResult, loading := false, error := none }
        (ApiResult.error "HTTP 500")).result).isSome = true ∧
    ((predictRun
        { form := DEFAULT, result := some sampleResult, loading := false, error := none }
        (ApiResult.error "HTTP 500")).error).isSome = true :=
  ⟨rfl, rfl⟩

/-- Claim C4 (amended): after every completion the loading flag is
false; on success the result is stored and the error is cleared; on
failure the error is stored while any prior result is left unchanged —
so when no prior result exists, exactly one of {result, error} is
populated, but a failure after an earlier success leaves both. -/
theorem c4_predict_completion_amended (s : SPState) (res : ApiResult PredictionResult) :
    (predictRun s res).loading = false ∧
    (∀ r, res = ApiResult.value r →
        (predictRun s res).result = some r ∧ (predictRun s res).error = none) ∧
    (∀ m, res = ApiResult.error m →
        (predictRun s res).error = some m ∧ (predictRun s res).result = s.result) ∧
    (s.result = none →
        (predictRun s res).result.isSome ≠ (predictRun s res).error.isSome) := by
  cases res with
  | value r =>
      refine ⟨rfl, ?_, ?_, ?_⟩
      · intro r2 hr2
        injection hr2 with h2
        subst h2
        exact ⟨rfl, rfl⟩
      · intro m hm
        exact ApiResult.noConfusion hm
      · intro hres
        show (some r).isSome ≠ (none : Option String).isSome
        simp
  | error m =>
      refine ⟨rfl, ?_, ?_, ?_⟩
      · intro r2 hr2
        exact ApiResult.noConfusion hr2
      · intro m2 hm2
        injection hm2 with h2
        subst h2
        exact ⟨rfl, rfl⟩
      · intro hres
        show s.result.isSome ≠ (some m).isSome
        rw [hres]
        simp

/-- Witness for the amended C4 theorem: a failing first submit from the
pristine state stores only the error. -/
theorem c4_predict_completion_amended_witness :
    (predictRun { form := DEFAULT, result := none, loading := false, error := none }
        (ApiResult.error "HTTP 500")).error = some "HTTP 500" ∧
    (predictRun { form := DEFAULT, result := none, loading := false, error := none }
        (ApiResult.error "HTTP 500")).result.isSome ≠
      (predictRun { form := DEFAULT, result := none, loading := false, error := none }
        (ApiResult.error "HTTP 500")).error.isSome :=
  ⟨((c4_predict_completion_amended
      { form := DEFAULT, result := none, loading := false, error := none }
      (ApiResult.error "HTTP 500")).2.2.1 "HTTP 500" rfl).1,
   (c4_predict_completion_amended
      { form := DEFAULT, result := none, loading := false, error := none }
      (ApiResult.error "HTTP 500")).2.2.2 rfl⟩

/-- Claim C5: a `fetchAlerts` completion whose outcome is the error
marker leaves the displayed list, the last-refresh timestamp, the
auto-refresh toggle and the live timers all unchanged, and clears the
loading flag — the error is swallowed. -/
theorem c5_fetch_error_keeps_list (s : LiveState) (m : String) (now : Nat) :
    (fetchAlertsRun s (ApiResult.error m) now).patients = s.patients ∧
    (fetchAlertsRun s (ApiResult.error m) now).lastRefresh = s.lastRefresh ∧
    (fetchAlertsRun s (ApiResult.error m) now).autoRefresh = s.autoRefresh ∧
    (fetchAlertsRun s (ApiResult.error m) now).timers = s.timers ∧
    (fetchAlertsRun s (ApiResult.error m) now).loading = false :=
  ⟨rfl, rfl, rfl, rfl, rfl⟩

/-- Claim C6: for any nonnegative value of the π constant, the rendered
sweep is proportional to the score (`circumference * score`), equals 0
at score 0 and the full circumference at score 1, and is monotone
non-decreasing in the score; an absent score renders no progress arc and
the placeholder label — the geometry involves no undefined number. -/
theorem c6_gauge_sweep (pi : ℚ) (hpi : 0 ≤ pi) :
    sweep pi 0 = 0 ∧
    sweep pi 1 = circumference pi ∧
    (∀ sc : ℚ, sweep pi sc = circumference pi * sc) ∧
    (∀ s1 s2 : ℚ, s1 ≤ s2 → sweep pi s1 ≤ sweep pi s2) ∧
    renderOrb pi none = { arc := none, pctLabel := none } := by
  have hsweep : ∀ sc : ℚ, sweep pi sc = circumference pi * sc := by
    intro sc
    unfold sweep dashOffset
    ring
  have hC : 0 ≤ circumference pi := by
    unfold circumference
    nlinarith
  refine ⟨by rw [hsweep]; ring, by rw [hsweep]; ring, hsweep, ?_, rfl⟩
  intro s1 s2 h12
  rw [hsweep, hsweep]
  exact mul_le_mul_of_nonneg_left h12 hC

/-- Witness for the C6 theorem at the concrete π value 3 and scores
1/4 ≤ 1/2. -/
theorem c6_gauge_sweep_witness :
    0 ≤ (3 : ℚ) ∧ sweep 3 0 = 0 ∧ sweep 3 1 = circumference 3 ∧
    sweep 3 (1 / 4) ≤ sweep 3 (1 / 2) ∧
    renderOrb 3 none = { arc := none, pctLabel := none } :=
  ⟨by norm_num, (c6_gauge_sweep 3 (by norm_num)).1, (c6_gauge_sweep 3 (by norm_num)).2.1,
   (c6_gauge_sweep 3 (by norm_num)).2.2.2.1 (1 / 4) (1 / 2) (by norm_num),
   (c6_gauge_sweep 3 (by norm_num)).2.2.2.2⟩

/-- Claim C7 (counterexample): applying the `stable` preset with an
error message on screen leaves the error in place — the handler only
replaces the form and clears the result, contradicting "clears any
existing result/error". -/
theorem c7_counterexample_error_kept :
    (applyPreset
        { form := DEFAULT, result := some sampleResult, loading := false,
          error := some "HTTP 500" }
        PresetName.stable).error = some "HTTP 500" ∧
    some "HTTP 500" ≠ (none : Option String) :=
  ⟨rfl, by simp⟩

/-- Claim C7 (amended): applying a named preset replaces the entire form
record with the named constant template and clears any existing result;
it leaves a prior error message unchanged (the resident variant clears
it, the patient variant does not). The operation is idempotent: a second
application produces the identical state. -/
theorem c7_apply_preset_amended (s : SPState) (p : PresetName) :
    (applyPreset s p).form = PRESETS p ∧
    (applyPreset s p).result = none ∧
    (applyPreset s p).error = s.error ∧
    applyPreset (applyPreset s p) p = applyPreset s p :=
  ⟨rfl, rfl, rfl, rfl⟩

/-- Claim C8: a level absent from the server's breakdown mapping renders
count 0, and the concrete response {LOW: 3, MEDIUM: 1, HIGH: 0,
URGENT: 0} with total 4 renders the percentages 75, 25, 0, 0. -/
theorem c8_batch_breakdown_pcts :
    (∀ (b : List (String × Nat)) (lvl : String),
        b.lookup lvl = none → breakdownCount b lvl = 0) ∧
    (pctRendered (breakdownCount sampleBreakdown "LOW") 4 = 75 ∧
     pctRendered (breakdownCount sampleBreakdown "MEDIUM") 4 = 25 ∧
     pctRendered (breakdownCount sampleBreakdown "HIGH") 4 = 0 ∧
     pctRendered (breakdownCount sampleBreakdown "URGENT") 4 = 0) := by
  constructor
  · intro b lvl h
    unfold breakdownCount
    rw [h]
  · have hL : breakdownCount sampleBreakdown "LOW" = 3 := by decide
    have hM : breakdownCount sampleBreakdown "MEDIUM" = 1 := by decide
    have hH : breakdownCount sampleBreakdown "HIGH" = 0 := by decide
    have hU : breakdownCount sampleBreakdown "URGENT" = 0 := by decide
    rw [hL, hM, hH, hU]
    refine ⟨?_, ?_, ?_, ?_⟩ <;> norm_num [pctRendered, jsRound]

/-- Witness for the C8 theorem: the level `"NONE"` is absent from the
sample breakdown and renders count 0. -/
theorem c8_batch_breakdown_pcts_witness :
    sampleBreakdown.lookup "NONE" = none ∧ breakdownCount sampleBreakdown "NONE" = 0 :=
  ⟨by decide, c8_batch_breakdown_pcts.1 sampleBreakdown "NONE" (by decide)⟩

/-- Claim C9: a raw string on which `parseFloat` yields NaN is stored as
the number 0 by the change handler on a numeric field, and the handler
can never store NaN, so no not-a-number value reaches the submitted
payload through such a field. -/
theorem c9_numeric_coercion (raw : String) :
    (parseFloat raw = JSNum.nan →
        changeField "number" raw = FieldValue.num (JSNum.val 0)) ∧
    changeField "number" raw ≠ FieldValue.num JSNum.nan := by
  constructor
  · intro h
    unfold changeField
    rw [if_pos rfl, h]
    rfl
  · unfold changeField
    rw [if_pos rfl]
    intro hcontra
    exact jsOrZero_ne_nan (parseFloat raw) (FieldValue.num.inj hcontra)

/-- Witness for the C9 theorem at the concrete non-numeric input
`"not a number"`. -/
theorem c9_numeric_coercion_witness :
    parseFloat "not a number" = JSNum.nan ∧
    changeField "number" "not a number" = FieldValue.num (JSNum.val 0) :=
  ⟨by decide, (c9_numeric_coercion "not a number").1 (by decide)⟩

/-- Claim C10: a `fetchAlerts` completion without an error marker whose
body lacks the patients array leaves both the displayed list and the
last-refresh timestamp unchanged; conversely the timestamp only ever
changes on an outcome that carries a patients array, which is then
stored as the displayed list. -/
theorem c10_missing_array_frame (s : LiveState) (now : Nat) :
    (fetchAlertsRun s (ApiResult.value none) now).patients = s.patients ∧
    (fetchAlertsRun s (ApiResult.value none) now).lastRefresh = s.lastRefresh ∧
    (∀ res : ApiResult (Option (List PatientSummary)),
        (fetchAlertsRun s res now).lastRefresh ≠ s.lastRefresh →
        ∃ ps, res = ApiResult.value (some ps) ∧
          (fetchAlertsRun s res now).patients = ps) := by
  refine ⟨rfl, rfl, ?_⟩
  intro res hne
  cases res with
  | error m => exact absurd rfl hne
  | value o =>
      cases o with
      | none => exact absurd rfl hne
      | some ps => exact ⟨ps, rfl, rfl⟩

/-- Witness for the C10 theorem: from the mounted state, an outcome that
does carry a (here empty) patients array changes the timestamp, and the
theorem recovers that array. -/
theorem c10_missing_array_frame_witness :
    (fetchAlertsRun mountLive (ApiResult.value (some [])) 5).lastRefresh
        ≠ mountLive.lastRefresh ∧
    ∃ ps, (ApiResult.value (some []) : ApiResult (Option (List PatientSummary)))
          = ApiResult.value (some ps) ∧
        (fetchAlertsRun mountLive (ApiResult.value (some [])) 5).patients = ps :=
  ⟨by simp [fetchAlertsRun, mountLive],
   (c10_missing_array_frame mountLive 5).2.2 (ApiResult.value (some []))
     (by simp [fetchAlertsRun, mountLive])⟩
